import Mathlib

/-!
Verification development for the Bedrock LLM/embedding adapter module
(`lightrag/llm/bedrock.py`).

The module is shallowly embedded: Python JSON-like values become the
inductive `Val`, `os.environ` becomes the record `Env` (restricted to the
five environment variables the module reads or writes), exceptions become
the inductive `PyError` carried in `Except`, and the two remote clients
(the Converse API and `invoke_model`) become oracle functions passed as
parameters.  Each embedded function also returns the list of remote calls
it issued, so that properties about the number and shape of remote calls
can be stated.  The tenacity retry decorators are embedded as the explicit
loop `tenacityLoop`.
-/

/-- A Python JSON-like value: strings, booleans, `None`, numbers, lists and
dicts (dicts as insertion-ordered association lists, mirroring Python). -/
inductive Val where
  | str (s : String)
  | bool (b : Bool)
  | pyNone
  | num (n : Int)
  | arr (xs : List Val)
  | obj (kvs : List (String × Val))
deriving Repr

/-- Python truthiness of a `Val` (used by `if system_prompt:`). -/
def Val.truthy : Val → Bool
  | .str s => s ≠ ""
  | .bool b => b
  | .pyNone => false
  | .num n => n ≠ 0
  | .arr xs => ¬ xs.isEmpty
  | .obj kvs => ¬ kvs.isEmpty

/-- The Python exceptions this module can raise or observe.  The three
`ValueError`s of the source are distinguished by their distinct messages and
are given separate constructors; the botocore transport classes listed in the
embedding retry decorator get one constructor each; `otherError` stands for an
arbitrary further exception coming out of a remote call. -/
inductive PyError where
  | typeError
  | keyError (k : String)
  | indexError
  | configurationError
  | unsupportedModel (model : String)
  | unsupportedProvider (provider : String)
  | bedrockError (cause : PyError)
  | clientError
  | endpointConnectionError
  | connectionClosedError
  | readTimeoutError
  | connectTimeoutError
  | botoCoreError
  | otherError (tag : String)
deriving Repr, DecidableEq

/-- Association-list lookup, modelling Python dict subscription/`get`. -/
def alookup (k : String) : List (String × Val) → Option Val
  | [] => none
  | (k1, v) :: rest => if k1 = k then some v else alookup k rest

/-- Remove a key, modelling Python `dict.pop(k, None)`. -/
def eraseKey (k : String) : List (String × Val) → List (String × Val)
  | [] => []
  | (k1, v) :: rest => if k1 = k then eraseKey k rest else (k1, v) :: eraseKey k rest

/-- Replace the value at a key in place (Python dict item assignment). -/
def setKey (k : String) (v : Val) : List (String × Val) → List (String × Val)
  | [] => [(k, v)]
  | (k1, v1) :: rest => if k1 = k then (k, v) :: eraseKey k rest else (k1, v1) :: setKey k v rest

/-- Python `d[k]` on a `Val`: key lookup on dicts, `KeyError` on a missing
key, `TypeError` on values that are not subscriptable by a string. -/
def Val.getKey (v : Val) (k : String) : Except PyError Val :=
  match v with
  | .obj kvs =>
    match alookup k kvs with
    | some w => .ok w
    | none => .error (.keyError k)
  | _ => .error .typeError

/-- Python `v[i]` for a natural index: list indexing (`IndexError` when out of
range), indexing a string yields its one-character substring, a dict raises
`KeyError` (no such integer key in this model), other values `TypeError`. -/
def Val.getIdx (v : Val) (i : Nat) : Except PyError Val :=
  match v with
  | .arr xs =>
    match xs.get? i with
    | some w => .ok w
    | none => .error .indexError
  | .str s =>
    match s.toList.get? i with
    | some c => .ok (.str (String.mk [c]))
    | none => .error .indexError
  | .obj _ => .error (.keyError (toString i))
  | _ => .error .typeError

/-- The slice of `os.environ` this module reads or writes: the three AWS
credential variables, the region, and the embedding-model override.  A field
is `none` when the variable is unset; note that a variable set to the empty
string is `some ""` (set, but falsy for Python truthiness tests). -/
structure Env where
  accessKeyId : Option String
  secretAccessKey : Option String
  sessionToken : Option String
  region : Option String
  embeddingModelName : Option String
deriving Repr, DecidableEq

/-- Python truthiness of an optional environment value (`if not aws_region`,
`if aws_access_key_id:`): unset and empty string are both falsy. -/
def strTruthy : Option String → Bool
  | some s => s ≠ ""
  | none => false

/-- Lines 42-50 of the source: three sequential statements of the form
`os.environ[K] = os.environ.get(K, supplied)`.  An already-set variable keeps
its value; an unset one receives the supplied argument; if both are absent the
assignment stores `None`, which `os.environ` rejects with `TypeError`.  The
returned environment reflects the assignments executed before any failure. -/
def applyCompletionCreds (env : Env) (ak sk st : Option String) : Env × Option PyError :=
  match env.accessKeyId <|> ak with
  | none => (env, some .typeError)
  | some a =>
    let env1 := { env with accessKeyId := some a }
    match env1.secretAccessKey <|> sk with
    | none => (env1, some .typeError)
    | some s =>
      let env2 := { env1 with secretAccessKey := some s }
      match env2.sessionToken <|> st with
      | none => (env2, some .typeError)
      | some t => ({ env2 with sessionToken := some t }, none)

/-- Lines 147-152 of the source: `if cred: os.environ[K] = cred` for each of
the three credentials — a truthy supplied credential unconditionally
overwrites the environment variable. -/
def applyEmbedCreds (env : Env) (ak sk st : Option String) : Env :=
  let e1 := if strTruthy ak then { env with accessKeyId := ak } else env
  let e2 := if strTruthy sk then { e1 with secretAccessKey := sk } else e1
  if strTruthy st then { e2 with sessionToken := st } else e2

/-- Lines 55-56 of the source: copy one history message and wrap its plain
text content into the provider's content-block shape
(`message["content"] = [{"text": message["content"]}]`); reading a missing
`"content"` key raises `KeyError`. -/
def wrapHistoryMessage (m : List (String × Val)) : Except PyError (List (String × Val)) :=
  match alookup "content" m with
  | none => .error (.keyError "content")
  | some c => .ok (setKey "content" (.arr [.obj [("text", c)]]) m)

/-- The history-fixing loop of lines 53-57. -/
def wrapHistoryMessages : List (List (String × Val)) → Except PyError (List (List (String × Val)))
  | [] => .ok []
  | m :: rest =>
    match wrapHistoryMessage m with
    | .error e => .error e
    | .ok m1 =>
      match wrapHistoryMessages rest with
      | .error e => .error e
      | .ok rest1 => .ok (m1 :: rest1)

/-- Line 60 of the source: the trailing user turn for the new prompt. -/
def newUserMessage (prompt : Val) : List (String × Val) :=
  [("role", .str "user"), ("content", .arr [.obj [("text", prompt)]])]

/-- The four generic inference-parameter names recognized at line 76. -/
def recognizedInferenceKeys : List String :=
  ["max_tokens", "temperature", "top_p", "stop_sequences"]

/-- The name translation of lines 70-74 (with `inference_params_map.get`
falling back to the key itself, so `temperature` keeps its name). -/
def translateInferenceKey : String → String
  | "max_tokens" => "maxTokens"
  | "top_p" => "topP"
  | "stop_sequences" => "stopSequences"
  | s => s

/-- Lines 75-82 of the source: the `inferenceConfig` sub-dict holding every
recognized key present in `kwargs` under its translated name, or absent when
no recognized key is present.  (The source iterates a Python set; since the
four keys are distinct the resulting dict does not depend on that order, and
the model fixes the declaration order of the recognized keys.) -/
def buildInferenceConfig (kwargs : List (String × Val)) : Option (List (String × Val)) :=
  let entries :=
    (match alookup "max_tokens" kwargs with | some v => [("maxTokens", v)] | none => []) ++
    (match alookup "temperature" kwargs with | some v => [("temperature", v)] | none => []) ++
    (match alookup "top_p" kwargs with | some v => [("topP", v)] | none => []) ++
    (match alookup "stop_sequences" kwargs with | some v => [("stopSequences", v)] | none => [])
  if entries.isEmpty then none else some entries

/-- The `kwargs` left over after lines 75-82 popped the recognized keys. -/
def stripRecognized (kwargs : List (String × Val)) : List (String × Val) :=
  kwargs.filter (fun kv => decide (kv.1 ∉ recognizedInferenceKeys))

/-- The argument set of the `converse` remote call: the `args` dict of lines
63-82 plus the leftover `**kwargs` forwarded at line 88. -/
structure ConverseArgs where
  modelId : Val
  messages : List (List (String × Val))
  system : Option (List Val)
  inferenceConfig : Option (List (String × Val))
  extra : List (String × Val)
deriving Repr

/-- Lines 60-82 of the source: assemble the Converse request from the wrapped
history `ms` and the `kwargs` dict as it stands after the `hashing_kv` pop. -/
def buildConverseArgs (model prompt systemPrompt : Val) (ms : List (List (String × Val)))
    (kwargs1 : List (String × Val)) : ConverseArgs :=
  { modelId := model
    messages := ms ++ [newUserMessage prompt]
    system := if systemPrompt.truthy then some [Val.obj [("text", systemPrompt)]] else none
    inferenceConfig := buildInferenceConfig kwargs1
    extra := stripRecognized kwargs1 }

/-- Line 92 of the source:
`response["output"]["message"]["content"][0]["text"]`. -/
def extractResponseText (resp : Val) : Except PyError Val :=
  match resp.getKey "output" with
  | .error e => .error e
  | .ok o =>
    match o.getKey "message" with
    | .error e => .error e
    | .ok m =>
      match m.getKey "content" with
      | .error e => .error e
      | .ok c =>
        match c.getIdx 0 with
        | .error e => .error e
        | .ok c0 => c0.getKey "text"

/-- The body of `bedrock_complete_if_cache` (lines 32-92), without the retry
decorator.  `converse` is the remote Converse client; the third component of
the result is the list of remote calls issued (the single `converse` call,
or none when the function fails before reaching it). -/
def bedrock_complete_if_cache (converse : ConverseArgs → Except PyError Val)
    (env : Env) (model prompt systemPrompt : Val)
    (history_messages : List (List (String × Val)))
    (aws_access_key_id aws_secret_access_key aws_session_token : Option String)
    (kwargs : List (String × Val)) :
    Except PyError Val × Env × List ConverseArgs :=
  match applyCompletionCreds env aws_access_key_id aws_secret_access_key aws_session_token with
  | (env1, some e) => (.error e, env1, [])
  | (env1, none) =>
    let kwargs1 := eraseKey "hashing_kv" kwargs
    match wrapHistoryMessages history_messages with
    | .error e => (.error e, env1, [])
    | .ok ms =>
      let args := buildConverseArgs model prompt systemPrompt ms kwargs1
      match converse args with
      | .error e => (.error (.bedrockError e), env1, [args])
      | .ok resp => (extractResponseText resp, env1, [args])

/-- Outcome of a tenacity-governed call: either an exception re-raised
directly (its type did not match the retry predicate) or tenacity's
`RetryError` wrapping the final attempt's exception after the stop condition
was reached. -/
inductive RetryOutcome (E : Type) where
  | direct (e : E)
  | exhausted (e : E)
deriving Repr, DecidableEq

/-- The tenacity loop with `stop_after_attempt` semantics: run attempt
`attempt` on state `s`; on success return; on a failure matching `pred`
either re-attempt (while `remaining > 0`) or give up with `exhausted`; on a
non-matching failure re-raise directly.  The last component of the result is
the number of the final attempt executed. -/
def tenacityLoop {E S A : Type} (pred : E → Bool) (run : Nat → S → Except E A × S) :
    Nat → Nat → S → Except (RetryOutcome E) A × S × Nat
  | remaining, attempt, s =>
    match run attempt s with
    | (.ok a, s1) => (.ok a, s1, attempt)
    | (.error e, s1) =>
      if pred e then
        match remaining with
        | 0 => (.error (.exhausted e), s1, attempt)
        | r + 1 => tenacityLoop pred run r (attempt + 1) s1
      else (.error (.direct e), s1, attempt)

/-- A call under `@retry(stop=stop_after_attempt(stopAfter), retry=pred)`:
at most `stopAfter` attempts, starting with attempt 1. -/
def tenacityCall {E S A : Type} (pred : E → Bool) (stopAfter : Nat)
    (run : Nat → S → Except E A × S) (s : S) : Except (RetryOutcome E) A × S × Nat :=
  tenacityLoop pred run (stopAfter - 1) 1 s

/-- The completion retry predicate of line 30:
`retry_if_exception_type((BedrockError))`. -/
def completionRetryPred : PyError → Bool
  | .bedrockError _ => true
  | _ => false

/-- The embedding retry predicate of lines 122-129: the six botocore
transport/throttling classes. -/
def embedRetryPred : PyError → Bool
  | .clientError => true
  | .endpointConnectionError => true
  | .connectionClosedError => true
  | .readTimeoutError => true
  | .connectTimeoutError => true
  | .botoCoreError => true
  | _ => false

/-- `bedrock_complete_if_cache` as decorated at lines 27-31:
`stop_after_attempt(5)` retrying only on `BedrockError`.  `converseAt n` is
the Converse client as it behaves on attempt `n`; the environment is threaded
across attempts; the last component is the number of attempts made. -/
def bedrock_complete_if_cache_retried (converseAt : Nat → ConverseArgs → Except PyError Val)
    (env : Env) (model prompt systemPrompt : Val)
    (history_messages : List (List (String × Val)))
    (aws_access_key_id aws_secret_access_key aws_session_token : Option String)
    (kwargs : List (String × Val)) :
    Except (RetryOutcome PyError) Val × Env × Nat :=
  tenacityCall completionRetryPred 5
    (fun n s =>
      let r := bedrock_complete_if_cache (converseAt n) s model prompt systemPrompt
        history_messages aws_access_key_id aws_secret_access_key aws_session_token kwargs
      (r.1, r.2.1))
    env

/-- Modelled from the spec: `locate_json_string_body_from_string` lives in
`lightrag.utils`, which is not part of this repository snapshot; per the spec
it post-processes the raw completion text to locate and return an embedded
JSON body.  Modelled as the substring stretching from the first opening brace
to the last closing brace when such a span exists, and Python `None`
otherwise. -/
def locate_json_string_body_from_string (s : String) : Val :=
  let cs := s.toList
  match cs.findIdx? (fun c => c = Char.ofNat 123), (cs.reverse.findIdx? (fun c => c = Char.ofNat 125)) with
  | some i, some jr =>
    let j := cs.length - 1 - jr
    if i ≤ j then .str (String.mk ((cs.drop i).take (j + 1 - i))) else .pyNone
  | _, _ => .pyNone

/-- `bedrock_complete` (lines 96-115).  The declared `keyword_extraction`
parameter is, exactly as in the source, immediately rebound at line 103 to
`kwargs.pop("keyword_extraction", None)`; Python's calling convention binds a
caller-supplied `keyword_extraction=` argument to the named parameter, never
to `**kwargs`.  The effective model identifier comes from
`kwargs["hashing_kv"].global_config["llm_model_name"]` (attribute access
modelled as key access); `stream` is popped and dropped; the remaining kwargs
(still containing `hashing_kv`) are forwarded to the core function. -/
def bedrock_complete (converse : ConverseArgs → Except PyError Val) (env : Env)
    (prompt systemPrompt : Val) (history_messages : List (List (String × Val)))
    ( keyword_extraction : Val) (kwargs : List (String × Val)) :
    Except PyError Val × Env × List ConverseArgs :=
  let kwFlag := (alookup "keyword_extraction" kwargs).getD Val.pyNone
  let kwargs1 := eraseKey "keyword_extraction" kwargs
  match alookup "hashing_kv" kwargs1 with
  | none => (.error (.keyError "hashing_kv"), env, [])
  | some hkv =>
    match hkv.getKey "global_config" with
    | .error e => (.error e, env, [])
    | .ok gc =>
      match gc.getKey "llm_model_name" with
      | .error e => (.error e, env, [])
      | .ok llmModelName =>
        let kwargs2 := eraseKey "stream" kwargs1
        match bedrock_complete_if_cache converse env llmModelName prompt systemPrompt
          history_messages none none none kwargs2 with
        | (.error e, env1, calls) => (.error e, env1, calls)
        | (.ok result, env1, calls) =>
          if kwFlag.truthy then
            match result with
            | .str s => (.ok (locate_json_string_body_from_string s), env1, calls)
            | _ => (.error .typeError, env1, calls)
          else (.ok result, env1, calls)

/-- Substring test on character lists (helper for Python `"v2" in model`). -/
def charListHasPrefix : List Char → List Char → Bool
  | _, [] => true
  | [], _ :: _ => false
  | c :: cs, p :: ps => c = p && charListHasPrefix cs ps

/-- Whether `pat` occurs as a contiguous run inside `s`. -/
def charListContainsSub : List Char → List Char → Bool
  | [], pat => pat.isEmpty
  | c :: cs, pat => charListHasPrefix (c :: cs) pat || charListContainsSub cs pat

/-- Python `pat in s` on strings. -/
def containsSub (s pat : String) : Bool :=
  charListContainsSub s.toList pat.toList

/-- The characters of a string up to (excluding) the first `.`. -/
def takeUntilDot : List Char → List Char
  | [] => []
  | c :: cs => if c = Char.ofNat 46 then [] else c :: takeUntilDot cs

/-- Python `model.split(".")[0]` (line 156): the first dot-separated segment,
the whole string when no dot occurs. -/
def firstSegment (s : String) : String :=
  String.mk (takeUntilDot s.toList)

/-- Lines 159-170 of the source: the per-text request body for the amazon
provider family.  `"v2" in model` is tested first, then `"v1" in model`;
any other version marker raises `ValueError` (the model-not-supported
message). -/
def amazonRequestBody (model text : String) : Except PyError Val :=
  if containsSub model "v2" then
    .ok (.obj [("inputText", .str text), ("embeddingTypes", .arr [.str "float"])])
  else if containsSub model "v1" then
    .ok (.obj [("inputText", .str text)])
  else
    .error (.unsupportedModel model)

/-- One `invoke_model` remote call.  The source's amazon branch passes the
model under the `modelId=` keyword (line 173) while the cohere branch passes
it under `model=` (line 188); both keywords are kept apart so the issued
calls reproduce the source exactly. -/
structure InvokeArgs where
  modelId : Option String
  model : Option String
  body : Val
  accept : String
  contentType : String
deriving Repr

/-- The amazon-branch `invoke_model` call of lines 172-177. -/
def mkAmazonInvokeArgs (model : String) (body : Val) : InvokeArgs :=
  { modelId := some model
    model := none
    body := body
    accept := "application/json"
    contentType := "application/json" }

/-- The cohere batched request body of lines 183-185. -/
def cohereRequestBody (texts : List String) : Val :=
  .obj [("texts", .arr (texts.map .str)),
        ("input_type", .str "search_document"),
        ("truncate", .str "NONE")]

/-- The cohere-branch `invoke_model` call of lines 187-192. -/
def mkCohereInvokeArgs (model : String) (texts : List String) : InvokeArgs :=
  { modelId := none
    model := some model
    body := cohereRequestBody texts
    accept := "application/json"
    contentType := "application/json" }

/-- The per-text loop of the amazon branch (lines 157-181).  `invoke` is the
remote client, returning the parsed response body; each iteration builds the
version-dependent body, issues the call, and appends the response's
`embedding` field.  The second component is the list of remote calls issued
before the loop finished or failed. -/
def amazonEmbedLoop (invoke : InvokeArgs → Except PyError Val) (model : String) :
    List String → Except PyError (List Val) × List InvokeArgs
  | [] => (.ok [], [])
  | t :: ts =>
    match amazonRequestBody model t with
    | .error e => (.error e, [])
    | .ok body =>
      let args := mkAmazonInvokeArgs model body
      match invoke args with
      | .error e => (.error e, [args])
      | .ok respBody =>
        match respBody.getKey "embedding" with
        | .error e => (.error e, [args])
        | .ok emb =>
          match amazonEmbedLoop invoke model ts with
          | (.ok rest, calls) => (.ok (emb :: rest), args :: calls)
          | (.error e, calls) => (.error e, args :: calls)

/-- `model or os.getenv("AWS_EMBEDDING_MODEL_NAME", "amazon.titan-embed-text-v2:0")`
(line 144): a falsy (absent or empty) explicit model falls back to the
environment override, and that to the hard-coded default. -/
def resolveEmbedModel (modelArg : Option String) (env : Env) : String :=
  let fallback := env.embeddingModelName.getD "amazon.titan-embed-text-v2:0"
  match modelArg with
  | some s => if s = "" then fallback else s
  | none => fallback

/-- The body of `bedrock_embed` (lines 131-200), without the retry decorator.
`invoke` is the remote `invoke_model` client returning the parsed response
body.  The result's components: the value returned (a 2-D array collected as
`Val.arr` rows for amazon, the response's `embeddings` value for cohere), the
environment after the credential writes, and the list of remote calls issued. -/
def bedrock_embed (invoke : InvokeArgs → Except PyError Val) (env : Env)
    (texts : List String) (modelArg : Option String)
    (aws_access_key_id aws_secret_access_key aws_session_token : Option String) :
    Except PyError Val × Env × List InvokeArgs :=
  if strTruthy env.region = false then (.error .configurationError, env, [])
  else
    let model := resolveEmbedModel modelArg env
    let env1 := applyEmbedCreds env aws_access_key_id aws_secret_access_key aws_session_token
    let provider := firstSegment model
    if provider = "amazon" then
      match amazonEmbedLoop invoke model texts with
      | (.ok embs, calls) => (.ok (.arr embs), env1, calls)
      | (.error e, calls) => (.error e, env1, calls)
    else if provider = "cohere" then
      let args := mkCohereInvokeArgs model texts
      match invoke args with
      | .error e => (.error e, env1, [args])
      | .ok respBody =>
        match respBody.getKey "embeddings" with
        | .error e => (.error e, env1, [args])
        | .ok embs => (.ok embs, env1, [args])
    else
      (.error (.unsupportedProvider provider), env1, [])

/-- `bedrock_embed` as decorated at lines 119-130: `stop_after_attempt(3)`
retrying only on the six botocore transport/throttling classes. -/
def bedrock_embed_retried (invokeAt : Nat → InvokeArgs → Except PyError Val)
    (env : Env) (texts : List String) (modelArg : Option String)
    (aws_access_key_id aws_secret_access_key aws_session_token : Option String) :
    Except (RetryOutcome PyError) Val × Env × Nat :=
  tenacityCall embedRetryPred 3
    (fun n s =>
      let r := bedrock_embed (invokeAt n) s texts modelArg
        aws_access_key_id aws_secret_access_key aws_session_token
      (r.1, r.2.1))
    env

/-- A fully populated environment used by concrete instantiations. -/
def envFixture : Env :=
  { accessKeyId := some "AKIA"
    secretAccessKey := some "SECRET"
    sessionToken := some "TOKEN"
    region := some "us-east-1"
    embeddingModelName := none }

/-- A raw completion text that contains an embedded JSON body strictly
smaller than the whole text. -/
def rawFixture : String := "Sure! \x7b\x22keywords\x22: [\x22a\x22]\x7d Done."

/-- A well-shaped Converse response whose first text segment is
`rawFixture`. -/
def converseResponseFixture : Val :=
  .obj [("output", .obj [("message",
    .obj [("role", .str "assistant"),
          ("content", .arr [.obj [("text", .str rawFixture)]])])])]

/-- A Converse client that always succeeds with `converseResponseFixture`. -/
def converseOkFixture : ConverseArgs → Except PyError Val :=
  fun _ => .ok converseResponseFixture

/-- A `hashing_kv` value exposing `global_config["llm_model_name"]`. -/
def hashingKvFixture : Val :=
  .obj [("global_config", .obj [("llm_model_name", .str "anthropic.claude-3")])]

lemma getKey_error_not_retryable (v : Val) (k : String) (e : PyError)
    (h : v.getKey k = .error e) : completionRetryPred e = false := by
  cases v <;> simp only [Val.getKey] at h
  case obj kvs =>
    split at h
    · simp at h
    · cases h; rfl
  all_goals (cases h; rfl)

lemma getIdx_error_not_retryable (v : Val) (i : Nat) (e : PyError)
    (h : v.getIdx i = .error e) : completionRetryPred e = false := by
  cases v <;> simp only [Val.getIdx] at h
  case str s =>
    split at h
    · simp at h
    · cases h; rfl
  case arr xs =>
    split at h
    · simp at h
    · cases h; rfl
  all_goals (cases h; rfl)

/-- A failure of the line-92 field extraction is never a `BedrockError`, so
the completion retry predicate rejects it. -/
lemma extractResponseText_error_not_retryable (resp : Val) (e : PyError)
    (h : extractResponseText resp = .error e) : completionRetryPred e = false := by
  unfold extractResponseText at h
  split at h
  next h0 => cases h; exact getKey_error_not_retryable _ _ _ h0
  next o h0 =>
    split at h
    next h1 => cases h; exact getKey_error_not_retryable _ _ _ h1
    next m h1 =>
      split at h
      next h2 => cases h; exact getKey_error_not_retryable _ _ _ h2
      next c h2 =>
        split at h
        next h3 => cases h; exact getIdx_error_not_retryable _ _ _ h3
        next c0 h3 => exact getKey_error_not_retryable _ _ _ h

/-- A completion-side credential variable that is already set keeps its value
through the line 42-50 assignments, whatever is supplied. -/
lemma applyCompletionCreds_preserves_set (env : Env) (ak sk st : Option String) :
    (∀ v, env.accessKeyId = some v → (applyCompletionCreds env ak sk st).1.accessKeyId = some v) ∧
    (∀ v, env.secretAccessKey = some v → (applyCompletionCreds env ak sk st).1.secretAccessKey = some v) ∧
    (∀ v, env.sessionToken = some v → (applyCompletionCreds env ak sk st).1.sessionToken = some v) := by
  unfold applyCompletionCreds
  refine ⟨fun v hv => ?_, fun v hv => ?_, fun v hv => ?_⟩ <;>
    rcases env with ⟨a, s, t, r, m⟩ <;> simp_all <;>
    cases a <;> cases s <;> cases t <;> simp_all <;>
    cases ak <;> cases sk <;> cases st <;> simp_all [Option.orElse]

/-- When the line 42-50 assignments succeed, every credential field of the
resulting environment is set. -/
lemma applyCompletionCreds_success_all_set (env env1 : Env) (ak sk st : Option String)
    (h : applyCompletionCreds env ak sk st = (env1, none)) :
    (∃ a, env1.accessKeyId = some a) ∧ (∃ b, env1.secretAccessKey = some b) ∧
    (∃ c, env1.sessionToken = some c) := by
  unfold applyCompletionCreds at h
  rcases env with ⟨a, s, t, r, m⟩
  cases a <;> cases s <;> cases t <;>
    cases ak <;> cases sk <;> cases st <;>
    simp_all [Option.orElse] <;> simp [← h]

/-- When every credential field is already set, the line 42-50 assignments
succeed and leave the environment unchanged. -/
lemma applyCompletionCreds_of_all_set (env : Env) (ak sk st : Option String)
    (ha : ∃ a, env.accessKeyId = some a) (hb : ∃ b, env.secretAccessKey = some b)
    (hc : ∃ c, env.sessionToken = some c) :
    applyCompletionCreds env ak sk st = (env, none) := by
  rcases env with ⟨a, s, t, r, m⟩
  rcases ha with ⟨a1, ha⟩; rcases hb with ⟨b1, hb⟩; rcases hc with ⟨c1, hc⟩
  simp at ha hb hc
  subst ha; subst hb; subst hc
  simp [applyCompletionCreds, Option.orElse]

/-- The embedding-side credential writes never touch the region or the
embedding-model override. -/
lemma applyEmbedCreds_preserves_config (env : Env) (ak sk st : Option String) :
    (applyEmbedCreds env ak sk st).region = env.region ∧
    (applyEmbedCreds env ak sk st).embeddingModelName = env.embeddingModelName := by
  unfold applyEmbedCreds
  cases strTruthy ak <;> cases strTruthy sk <;> cases strTruthy st <;> simp

/-- A truthy explicitly supplied embedding credential always lands in the
corresponding variable, whatever was there before. -/
lemma applyEmbedCreds_overwrites (env : Env) (ak sk st : Option String) :
    (∀ a, ak = some a → a ≠ "" → (applyEmbedCreds env ak sk st).accessKeyId = some a) ∧
    (∀ b, sk = some b → b ≠ "" → (applyEmbedCreds env ak sk st).secretAccessKey = some b) ∧
    (∀ c, st = some c → c ≠ "" → (applyEmbedCreds env ak sk st).sessionToken = some c) := by
  refine ⟨fun a hak ha => ?_, fun b hsk hb => ?_, fun c hst hc => ?_⟩ <;> subst_vars <;>
    simp_all [applyEmbedCreds, strTruthy] <;> split_ifs <;> simp

/-- If every attempt from a `P`-state fails with a retryable error satisfying
`Q` and leaves a `P`-state, the tenacity loop exhausts its budget: the final
attempt number is the starting attempt plus the remaining budget, and
tenacity's `RetryError` wraps the last failure, which satisfies `Q`. -/
lemma tenacityLoop_all_fail {E S A : Type} (pred : E → Bool)
    (run : Nat → S → Except E A × S) (P : S → Prop) (Q : E → Prop)
    (h : ∀ n s, P s → ∃ e s1, run n s = (.error e, s1) ∧ pred e = true ∧ Q e ∧ P s1) :
    ∀ (r a : Nat) (s : S), P s →
      ∃ e s1, tenacityLoop pred run r a s = (.error (.exhausted e), s1, a + r) ∧ Q e := by
  intro r
  induction r with
  | zero =>
    intro a s hs
    rcases h a s hs with ⟨e, s1, hrun, hpred, hQ, _⟩
    refine ⟨e, s1, ?_, hQ⟩
    rw [tenacityLoop.eq_def]
    dsimp only
    rw [hrun]
    simp [hpred]
  | succ r ih =>
    intro a s hs
    rcases h a s hs with ⟨e, s1, hrun, hpred, hQ, hs1⟩
    rcases ih (a + 1) s1 hs1 with ⟨e2, s2, hloop, hQ2⟩
    refine ⟨e2, s2, ?_, hQ2⟩
    rw [tenacityLoop.eq_def]
    dsimp only
    rw [hrun]
    simp only [hpred, if_true]
    rw [hloop]
    congr 2
    omega

/-- If the very first attempt fails with a non-retryable error, the call
surfaces it directly after exactly one attempt. -/
lemma tenacityCall_first_direct {E S A : Type} (pred : E → Bool) (stopAfter : Nat)
    (run : Nat → S → Except E A × S) (s : S) (e : E) (s1 : S)
    (hrun : run 1 s = (.error e, s1)) (hpred : pred e = false) :
    tenacityCall pred stopAfter run s = (.error (.direct e), s1, 1) := by
  rw [tenacityCall, tenacityLoop.eq_def]
  dsimp only
  rw [hrun]
  simp [hpred]

/-- If the first attempt succeeds, the call returns its value after exactly
one attempt. -/
lemma tenacityCall_first_ok {E S A : Type} (pred : E → Bool) (stopAfter : Nat)
    (run : Nat → S → Except E A × S) (s : S) (a : A) (s1 : S)
    (hrun : run 1 s = (.ok a, s1)) :
    tenacityCall pred stopAfter run s = (.ok a, s1, 1) := by
  rw [tenacityCall, tenacityLoop.eq_def]
  dsimp only
  rw [hrun]

/-- On the path where the credential assignments succeed and the history is
well-formed, a failing Converse call makes `bedrock_complete_if_cache` raise
`BedrockError` wrapping the underlying failure, with that one call issued. -/
lemma bedrock_complete_if_cache_conv_error
    (converse : ConverseArgs → Except PyError Val) (env env1 : Env)
    (model prompt systemPrompt : Val) (history : List (List (String × Val)))
    (ak sk st : Option String) (kwargs : List (String × Val))
    (ms : List (List (String × Val))) (e : PyError)
    (hc : applyCompletionCreds env ak sk st = (env1, none))
    (hw : wrapHistoryMessages history = .ok ms)
    (he : converse (buildConverseArgs model prompt systemPrompt ms (eraseKey "hashing_kv" kwargs)) = .error e) :
    bedrock_complete_if_cache converse env model prompt systemPrompt history ak sk st kwargs =
      (.error (.bedrockError e), env1,
       [buildConverseArgs model prompt systemPrompt ms (eraseKey "hashing_kv" kwargs)]) := by
  simp only [bedrock_complete_if_cache]
  rw [hc]
  dsimp only
  rw [hw]
  dsimp only
  rw [he]

/-- On the same path, a successful Converse call makes the function return
the line-92 extraction applied to the response, with that one call issued. -/
lemma bedrock_complete_if_cache_conv_ok
    (converse : ConverseArgs → Except PyError Val) (env env1 : Env)
    (model prompt systemPrompt : Val) (history : List (List (String × Val)))
    (ak sk st : Option String) (kwargs : List (String × Val))
    (ms : List (List (String × Val))) (resp : Val)
    (hc : applyCompletionCreds env ak sk st = (env1, none))
    (hw : wrapHistoryMessages history = .ok ms)
    (ho : converse (buildConverseArgs model prompt systemPrompt ms (eraseKey "hashing_kv" kwargs)) = .ok resp) :
    bedrock_complete_if_cache converse env model prompt systemPrompt history ak sk st kwargs =
      (extractResponseText resp, env1,
       [buildConverseArgs model prompt systemPrompt ms (eraseKey "hashing_kv" kwargs)]) := by
  simp only [bedrock_complete_if_cache]
  rw [hc]
  dsimp only
  rw [hw]
  dsimp only
  rw [ho]

/-- The environment coming out of `bedrock_complete_if_cache` is exactly the
one produced by the line 42-50 credential assignments, on every path. -/
lemma bedrock_complete_if_cache_env
    (converse : ConverseArgs → Except PyError Val) (env : Env)
    (model prompt systemPrompt : Val) (history : List (List (String × Val)))
    (ak sk st : Option String) (kwargs : List (String × Val)) :
    (bedrock_complete_if_cache converse env model prompt systemPrompt history ak sk st kwargs).2.1 =
      (applyCompletionCreds env ak sk st).1 := by
  simp only [bedrock_complete_if_cache]
  rcases h : applyCompletionCreds env ak sk st with ⟨env1, err⟩
  cases err
  · dsimp only
    rcases wrapHistoryMessages history with e | ms
    · rfl
    · dsimp only
      rcases converse (buildConverseArgs model prompt systemPrompt ms (eraseKey "hashing_kv" kwargs)) with e | resp <;> rfl
  · rfl

/-- With the region set and an amazon-family model, `bedrock_embed` defers to
the per-text loop, the credential writes applied. -/
lemma bedrock_embed_amazon (invoke : InvokeArgs → Except PyError Val) (env : Env)
    (texts : List String) (modelArg ak sk st : Option String)
    (hr : strTruthy env.region = true)
    (hp : firstSegment (resolveEmbedModel modelArg env) = "amazon") :
    bedrock_embed invoke env texts modelArg ak sk st =
      (match amazonEmbedLoop invoke (resolveEmbedModel modelArg env) texts with
       | (.ok embs, calls) => (.ok (.arr embs), applyEmbedCreds env ak sk st, calls)
       | (.error e, calls) => (.error e, applyEmbedCreds env ak sk st, calls)) := by
  simp only [bedrock_embed, hr, hp]
  simp

/-- With the region set and a cohere-family model, `bedrock_embed` issues the
single batched call and hands back its parsed `embeddings` field. -/
lemma bedrock_embed_cohere (invoke : InvokeArgs → Except PyError Val) (env : Env)
    (texts : List String) (modelArg ak sk st : Option String)
    (hr : strTruthy env.region = true)
    (hp : firstSegment (resolveEmbedModel modelArg env) = "cohere") :
    bedrock_embed invoke env texts modelArg ak sk st =
      (match invoke (mkCohereInvokeArgs (resolveEmbedModel modelArg env) texts) with
       | .error e => (.error e, applyEmbedCreds env ak sk st,
           [mkCohereInvokeArgs (resolveEmbedModel modelArg env) texts])
       | .ok respBody =>
         match respBody.getKey "embeddings" with
         | .error e => (.error e, applyEmbedCreds env ak sk st,
             [mkCohereInvokeArgs (resolveEmbedModel modelArg env) texts])
         | .ok embs => (.ok embs, applyEmbedCreds env ak sk st,
             [mkCohereInvokeArgs (resolveEmbedModel modelArg env) texts])) := by
  simp only [bedrock_embed, hr, hp]
  simp

/-- With the region set and a model from neither family, `bedrock_embed`
fails with the unsupported-provider `ValueError` and issues no call. -/
lemma bedrock_embed_unsupported_provider (invoke : InvokeArgs → Except PyError Val)
    (env : Env) (texts : List String) (modelArg ak sk st : Option String)
    (hr : strTruthy env.region = true)
    (hpa : firstSegment (resolveEmbedModel modelArg env) ≠ "amazon")
    (hpc : firstSegment (resolveEmbedModel modelArg env) ≠ "cohere") :
    bedrock_embed invoke env texts modelArg ak sk st =
      (.error (.unsupportedProvider (firstSegment (resolveEmbedModel modelArg env))),
       applyEmbedCreds env ak sk st, []) := by
  simp only [bedrock_embed, hr, hpa, hpc]
  simp [hpa, hpc]

/-- When the version-dependent body construction succeeds for every text and
every remote call answers with a body carrying an `embedding` field, the
amazon loop issues exactly one call per text, in input order, and collects
the per-call embeddings in the same order. -/
lemma amazonEmbedLoop_ok_spec (invoke : InvokeArgs → Except PyError Val) (model : String)
    (bodyF : String → Val) (embF : InvokeArgs → Val)
    (hbody : ∀ t, amazonRequestBody model t = .ok (bodyF t))
    (hinv : ∀ a, ∃ r, invoke a = .ok r ∧ r.getKey "embedding" = .ok (embF a)) :
    ∀ ts, amazonEmbedLoop invoke model ts =
      (.ok (ts.map fun t => embF (mkAmazonInvokeArgs model (bodyF t))),
       ts.map fun t => mkAmazonInvokeArgs model (bodyF t)) := by
  intro ts
  induction ts with
  | nil => rfl
  | cons t ts ih =>
    rcases hinv (mkAmazonInvokeArgs model (bodyF t)) with ⟨r, hr, hemb⟩
    simp only [amazonEmbedLoop, hbody t]
    rw [hr]
    dsimp only
    rw [hemb]
    dsimp only
    rw [ih]
    simp

/-- Every call the amazon loop issues carries a body built by
`amazonRequestBody` from one of the input texts. -/
lemma amazonEmbedLoop_calls_mem (invoke : InvokeArgs → Except PyError Val) (model : String) :
    ∀ (ts : List String) (c : InvokeArgs), c ∈ (amazonEmbedLoop invoke model ts).2 →
      ∃ t ∈ ts, amazonRequestBody model t = .ok c.body ∧ c = mkAmazonInvokeArgs model c.body := by
  intro ts
  induction ts with
  | nil => intro c hc; simp [amazonEmbedLoop] at hc
  | cons t ts ih =>
    intro c hc
    simp only [amazonEmbedLoop] at hc
    rcases hb : amazonRequestBody model t with e | body <;> rw [hb] at hc
    · simp at hc
    · dsimp only at hc
      rcases hi : invoke (mkAmazonInvokeArgs model body) with e | respBody <;> rw [hi] at hc
      · simp at hc
        subst hc
        exact ⟨t, by simp, by simpa using hb, by simp [mkAmazonInvokeArgs]⟩
      · dsimp only at hc
        rcases hg : respBody.getKey "embedding" with e | emb <;> rw [hg] at hc
        · simp at hc
          subst hc
          exact ⟨t, by simp, by simpa using hb, by simp [mkAmazonInvokeArgs]⟩
        · dsimp only at hc
          rcases hrest : amazonEmbedLoop invoke model ts with ⟨r, calls⟩ <;> rw [hrest] at hc
          have hc2 : c = mkAmazonInvokeArgs model body ∨ c ∈ calls := by
            rcases r with e | rest <;> simp at hc <;> tauto
          rcases hc2 with rfl | hc2
          · exact ⟨t, by simp, by simpa using hb, by simp [mkAmazonInvokeArgs]⟩
          · rcases ih c (by rw [hrest]; exact hc2) with ⟨t1, ht1, hbt, hct⟩
            exact ⟨t1, by simp [ht1], hbt, hct⟩

/-- On an amazon model with an unsupported version marker, the loop fails
before issuing any call (for a non-empty text list). -/
lemma amazonEmbedLoop_unsupported (invoke : InvokeArgs → Except PyError Val) (model : String)
    (t : String) (ts : List String) (e : PyError)
    (hb : amazonRequestBody model t = .error e) :
    amazonEmbedLoop invoke model (t :: ts) = (.error e, []) := by
  simp only [amazonEmbedLoop, hb]

/-- Lookup of a different key is unaffected by a `pop`. -/
lemma alookup_eraseKey_ne (k k1 : String) (h : k ≠ k1) :
    ∀ kwargs, alookup k (eraseKey k1 kwargs) = alookup k kwargs := by
  intro kwargs
  induction kwargs with
  | nil => rfl
  | cons kv rest ih =>
    rcases kv with ⟨k2, v⟩
    by_cases h2 : k2 = k1 <;> by_cases h3 : k2 = k <;>
      simp_all [eraseKey, alookup]

/-- A popped key is gone. -/
lemma alookup_eraseKey_self (k : String) :
    ∀ kwargs, alookup k (eraseKey k kwargs) = none := by
  intro kwargs
  induction kwargs with
  | nil => rfl
  | cons kv rest ih =>
    rcases kv with ⟨k2, v⟩
    by_cases h2 : k2 = k <;> simp_all [eraseKey, alookup]

/-- Lookup of an unrecognized key passes through the recognized-key strip. -/
lemma alookup_stripRecognized_not_mem (k : String) (h : k ∉ recognizedInferenceKeys) :
    ∀ kwargs, alookup k (stripRecognized kwargs) = alookup k kwargs := by
  intro kwargs
  induction kwargs with
  | nil => rfl
  | cons kv rest ih =>
    rcases kv with ⟨k2, v⟩
    by_cases h2 : k2 ∈ recognizedInferenceKeys <;> by_cases h3 : k2 = k <;>
      simp_all [stripRecognized, alookup, List.filter]

/-- A recognized key never survives into the leftover kwargs. -/
lemma alookup_stripRecognized_mem (k : String) (h : k ∈ recognizedInferenceKeys) :
    ∀ kwargs, alookup k (stripRecognized kwargs) = none := by
  intro kwargs
  induction kwargs with
  | nil => rfl
  | cons kv rest ih =>
    rcases kv with ⟨k2, v⟩
    by_cases h2 : k2 ∈ recognizedInferenceKeys <;> by_cases h3 : k2 = k <;>
      simp_all [stripRecognized, alookup, List.filter]

/-- Lookup inside the optional `inferenceConfig` sub-dict. -/
def icLookup : Option (List (String × Val)) → String → Option Val
  | none, _ => none
  | some l, k => alookup k l

/-- The `inferenceConfig` sub-dict holds exactly the four recognized keys of
the incoming kwargs, each under its translated name. -/
lemma buildInferenceConfig_lookups (kwargs : List (String × Val)) :
    icLookup (buildInferenceConfig kwargs) "maxTokens" = alookup "max_tokens" kwargs ∧
    icLookup (buildInferenceConfig kwargs) "temperature" = alookup "temperature" kwargs ∧
    icLookup (buildInferenceConfig kwargs) "topP" = alookup "top_p" kwargs ∧
    icLookup (buildInferenceConfig kwargs) "stopSequences" = alookup "stop_sequences" kwargs := by
  unfold buildInferenceConfig
  rcases h1 : alookup "max_tokens" kwargs with _ | v1 <;>
    rcases h2 : alookup "temperature" kwargs with _ | v2 <;>
    rcases h3 : alookup "top_p" kwargs with _ | v3 <;>
    rcases h4 : alookup "stop_sequences" kwargs with _ | v4 <;>
    simp [icLookup, alookup]

/-- On the creds-ok path, a call to `bedrock_complete_if_cache` issues
exactly one Converse call, built by `buildConverseArgs`. -/
lemma bedrock_complete_if_cache_calls
    (converse : ConverseArgs → Except PyError Val) (env env1 : Env)
    (model prompt systemPrompt : Val) (history ms : List (List (String × Val)))
    (ak sk st : Option String) (kwargs : List (String × Val))
    (hc : applyCompletionCreds env ak sk st = (env1, none))
    (hw : wrapHistoryMessages history = .ok ms) :
    (bedrock_complete_if_cache converse env model prompt systemPrompt history ak sk st kwargs).2.2 =
      [buildConverseArgs model prompt systemPrompt ms (eraseKey "hashing_kv" kwargs)] := by
  rcases h : converse (buildConverseArgs model prompt systemPrompt ms (eraseKey "hashing_kv" kwargs)) with e | resp
  · rw [bedrock_complete_if_cache_conv_error converse env env1 model prompt systemPrompt history
      ak sk st kwargs ms e hc hw h]
  · rw [bedrock_complete_if_cache_conv_ok converse env env1 model prompt systemPrompt history
      ak sk st kwargs ms resp hc hw h]

/-- C2 (amended): in `bedrock_complete_if_cache`, each of the four recognized
inference-parameter keys present in the params mapping is removed from the
top-level arguments of the issued remote call and appears under
`inferenceConfig` with its translated name, and every unrecognized key other
than `hashing_kv` (which line 51 removes without forwarding) is passed
through unmodified as a top-level argument. -/
theorem c2_inference_parameter_translation
    (converse : ConverseArgs → Except PyError Val) (env env1 : Env)
    (model prompt systemPrompt : Val) (history ms : List (List (String × Val)))
    (ak sk st : Option String) (kwargs : List (String × Val))
    (hc : applyCompletionCreds env ak sk st = (env1, none))
    (hw : wrapHistoryMessages history = .ok ms) :
    ∃ args : ConverseArgs,
      (bedrock_complete_if_cache converse env model prompt systemPrompt history ak sk st kwargs).2.2 = [args] ∧
      icLookup args.inferenceConfig "maxTokens" = alookup "max_tokens" kwargs ∧
      icLookup args.inferenceConfig "temperature" = alookup "temperature" kwargs ∧
      icLookup args.inferenceConfig "topP" = alookup "top_p" kwargs ∧
      icLookup args.inferenceConfig "stopSequences" = alookup "stop_sequences" kwargs ∧
      (∀ k, k ∈ recognizedInferenceKeys → alookup k args.extra = none) ∧
      (∀ k, k ∉ recognizedInferenceKeys → k ≠ "hashing_kv" →
        alookup k args.extra = alookup k kwargs) := by
  refine ⟨buildConverseArgs model prompt systemPrompt ms (eraseKey "hashing_kv" kwargs),
    bedrock_complete_if_cache_calls converse env env1 model prompt systemPrompt history ms
      ak sk st kwargs hc hw, ?_, ?_, ?_, ?_, ?_, ?_⟩ <;> simp only [buildConverseArgs]
  · rw [(buildInferenceConfig_lookups (eraseKey "hashing_kv" kwargs)).1]
    exact alookup_eraseKey_ne _ _ (by decide) kwargs
  · rw [(buildInferenceConfig_lookups (eraseKey "hashing_kv" kwargs)).2.1]
    exact alookup_eraseKey_ne _ _ (by decide) kwargs
  · rw [(buildInferenceConfig_lookups (eraseKey "hashing_kv" kwargs)).2.2.1]
    exact alookup_eraseKey_ne _ _ (by decide) kwargs
  · rw [(buildInferenceConfig_lookups (eraseKey "hashing_kv" kwargs)).2.2.2]
    exact alookup_eraseKey_ne _ _ (by decide) kwargs
  · intro k hk
    exact alookup_stripRecognized_mem k hk _
  · intro k hk hk2
    rw [alookup_stripRecognized_not_mem k hk _]
    exact alookup_eraseKey_ne _ _ hk2 kwargs

/-- C2 counterexample: at a concrete call whose params mapping holds the
unrecognized key `hashing_kv`, that key is absent from the top-level
arguments of the issued remote call — not every unrecognized key is passed
through. -/
theorem c2_hashing_kv_not_passed_through :
    "hashing_kv" ∉ recognizedInferenceKeys ∧
    (bedrock_complete_if_cache converseOkFixture envFixture (.str "m") (.str "p") .pyNone []
        none none none [("hashing_kv", .str "x")]).2.2.map
      (fun a => alookup "hashing_kv" a.extra) = [none] := by
  exact ⟨by decide, rfl⟩

/-- C2 witness: the amended statement at a concrete input carrying one
recognized key, one unrecognized key, and `hashing_kv`. -/
theorem c2_inference_parameter_translation_witness :
    ∃ args : ConverseArgs,
      (bedrock_complete_if_cache converseOkFixture envFixture (.str "m") (.str "p") .pyNone []
        none none none
        [("max_tokens", .num 100), ("foo", .str "bar"), ("hashing_kv", .str "x")]).2.2 = [args] ∧
      icLookup args.inferenceConfig "maxTokens" =
        alookup "max_tokens" [("max_tokens", Val.num 100), ("foo", Val.str "bar"), ("hashing_kv", Val.str "x")] ∧
      icLookup args.inferenceConfig "temperature" =
        alookup "temperature" [("max_tokens", Val.num 100), ("foo", Val.str "bar"), ("hashing_kv", Val.str "x")] ∧
      icLookup args.inferenceConfig "topP" =
        alookup "top_p" [("max_tokens", Val.num 100), ("foo", Val.str "bar"), ("hashing_kv", Val.str "x")] ∧
      icLookup args.inferenceConfig "stopSequences" =
        alookup "stop_sequences" [("max_tokens", Val.num 100), ("foo", Val.str "bar"), ("hashing_kv", Val.str "x")] ∧
      (∀ k, k ∈ recognizedInferenceKeys → alookup k args.extra = none) ∧
      (∀ k, k ∉ recognizedInferenceKeys → k ≠ "hashing_kv" →
        alookup k args.extra =
          alookup k [("max_tokens", Val.num 100), ("foo", Val.str "bar"), ("hashing_kv", Val.str "x")]) :=
  c2_inference_parameter_translation converseOkFixture envFixture envFixture
    (.str "m") (.str "p") .pyNone [] [] none none none
    [("max_tokens", .num 100), ("foo", .str "bar"), ("hashing_kv", .str "x")] rfl rfl

/-- When one of the three credentials is absent on both sides, the line 42-50
assignments fail with `TypeError`. -/
lemma applyCompletionCreds_missing (env : Env) (ak sk st : Option String)
    (hmiss : (env.accessKeyId = none ∧ ak = none) ∨
      (env.secretAccessKey = none ∧ sk = none) ∨
      (env.sessionToken = none ∧ st = none)) :
    (applyCompletionCreds env ak sk st).2 = some PyError.typeError := by
  rcases env with ⟨a, s, t, r, m⟩
  cases a <;> cases s <;> cases t <;> cases ak <;> cases sk <;> cases st <;>
    simp_all [applyCompletionCreds, Option.orElse]

/-- When the credential assignments fail, `bedrock_complete_if_cache` raises
that failure with no remote call issued. -/
lemma bedrock_complete_if_cache_creds_fail
    (converse : ConverseArgs → Except PyError Val) (env : Env)
    (model prompt systemPrompt : Val) (history : List (List (String × Val)))
    (ak sk st : Option String) (kwargs : List (String × Val)) (e : PyError)
    (hc : (applyCompletionCreds env ak sk st).2 = some e) :
    bedrock_complete_if_cache converse env model prompt systemPrompt history ak sk st kwargs =
      (.error e, (applyCompletionCreds env ak sk st).1, []) := by
  simp only [bedrock_complete_if_cache]
  rcases h : applyCompletionCreds env ak sk st with ⟨env1, err⟩
  rw [h] at hc
  simp at hc
  subst hc
  rfl

/-- C4: every exception raised by the underlying remote Converse call
propagates out of the call body as the single generic provider error class
(`BedrockError`), regardless of the original exception. -/
theorem c4_converse_failure_wrapped
    (converse : ConverseArgs → Except PyError Val) (env env1 : Env)
    (model prompt systemPrompt : Val) (history ms : List (List (String × Val)))
    (ak sk st : Option String) (kwargs : List (String × Val)) (e : PyError)
    (hc : applyCompletionCreds env ak sk st = (env1, none))
    (hw : wrapHistoryMessages history = .ok ms)
    (he : converse (buildConverseArgs model prompt systemPrompt ms
      (eraseKey "hashing_kv" kwargs)) = .error e) :
    (bedrock_complete_if_cache converse env model prompt systemPrompt history
      ak sk st kwargs).1 = .error (.bedrockError e) := by
  rw [bedrock_complete_if_cache_conv_error converse env env1 model prompt systemPrompt history
    ak sk st kwargs ms e hc hw he]

/-- C4 witness: a Converse client failing with an arbitrary exception at a
concrete call yields `BedrockError` wrapping it. -/
theorem c4_converse_failure_wrapped_witness :
    (bedrock_complete_if_cache (fun _ => .error (.otherError "socket reset")) envFixture
      (.str "m") (.str "p") .pyNone [] none none none []).1 =
      .error (.bedrockError (.otherError "socket reset")) :=
  c4_converse_failure_wrapped (fun _ => .error (.otherError "socket reset")) envFixture envFixture
    (.str "m") (.str "p") .pyNone [] [] none none none [] (.otherError "socket reset") rfl rfl rfl

/-- C10: omitting any one of the three credential arguments while the
corresponding environment variable is unset makes `bedrock_complete_if_cache`
fail with `TypeError` from the environment-variable assignment, before any
request is constructed and with zero remote calls issued. -/
theorem c10_missing_credentials_type_error
    (converse : ConverseArgs → Except PyError Val) (env : Env)
    (model prompt systemPrompt : Val) (history : List (List (String × Val)))
    (ak sk st : Option String) (kwargs : List (String × Val))
    (hmiss : (env.accessKeyId = none ∧ ak = none) ∨
      (env.secretAccessKey = none ∧ sk = none) ∨
      (env.sessionToken = none ∧ st = none)) :
    (bedrock_complete_if_cache converse env model prompt systemPrompt history ak sk st kwargs).1 =
      .error .typeError ∧
    (bedrock_complete_if_cache converse env model prompt systemPrompt history ak sk st kwargs).2.2 = [] := by
  rw [bedrock_complete_if_cache_creds_fail converse env model prompt systemPrompt history
    ak sk st kwargs .typeError (applyCompletionCreds_missing env ak sk st hmiss)]
  exact ⟨rfl, rfl⟩

/-- An environment with no credentials set (region present). -/
def envNoCreds : Env :=
  { accessKeyId := none
    secretAccessKey := none
    sessionToken := none
    region := some "us-east-1"
    embeddingModelName := none }

/-- C10 witness: the concrete call with every credential source absent fails
with `TypeError` and issues no remote call. -/
theorem c10_missing_credentials_type_error_witness :
    (bedrock_complete_if_cache converseOkFixture envNoCreds (.str "m") (.str "p") .pyNone []
      none none none []).1 = .error .typeError ∧
    (bedrock_complete_if_cache converseOkFixture envNoCreds (.str "m") (.str "p") .pyNone []
      none none none []).2.2 = [] :=
  c10_missing_credentials_type_error converseOkFixture envNoCreds (.str "m") (.str "p") .pyNone []
    none none none [] (Or.inl ⟨rfl, rfl⟩)

/-- With the region set, the environment coming out of `bedrock_embed` is
exactly the one produced by the line 147-152 credential writes, on every
dispatch path. -/
lemma bedrock_embed_env (invoke : InvokeArgs → Except PyError Val) (env : Env)
    (texts : List String) (modelArg ak sk st : Option String)
    (hr : strTruthy env.region = true) :
    (bedrock_embed invoke env texts modelArg ak sk st).2.1 =
      applyEmbedCreds env ak sk st := by
  simp only [bedrock_embed, hr]
  simp only [Bool.true_eq_false, if_false]
  split_ifs
  · rcases amazonEmbedLoop invoke (resolveEmbedModel modelArg env) texts with ⟨r, calls⟩
    rcases r with e | embs <;> rfl
  · rcases invoke (mkCohereInvokeArgs (resolveEmbedModel modelArg env) texts) with e | respBody <;>
      dsimp only
    rcases respBody.getKey "embeddings" with e | embs <;> rfl
  · rfl

/-- C9: the two pipelines treat explicitly supplied credentials
asymmetrically — in `bedrock_complete_if_cache` a process-wide credential
variable that is already set is never overwritten, while in `bedrock_embed`
an explicitly supplied (non-empty) credential always overwrites the
corresponding variable. -/
theorem c9_credential_asymmetry
    (converse : ConverseArgs → Except PyError Val) (env : Env)
    (model prompt systemPrompt : Val) (history : List (List (String × Val)))
    (ak sk st : Option String) (kwargs : List (String × Val))
    (invoke : InvokeArgs → Except PyError Val) (env2 : Env)
    (texts : List String) (modelArg ak2 sk2 st2 : Option String)
    (hr : strTruthy env2.region = true) :
    (∀ v, env.accessKeyId = some v →
      (bedrock_complete_if_cache converse env model prompt systemPrompt history
        ak sk st kwargs).2.1.accessKeyId = some v) ∧
    (∀ v, env.secretAccessKey = some v →
      (bedrock_complete_if_cache converse env model prompt systemPrompt history
        ak sk st kwargs).2.1.secretAccessKey = some v) ∧
    (∀ v, env.sessionToken = some v →
      (bedrock_complete_if_cache converse env model prompt systemPrompt history
        ak sk st kwargs).2.1.sessionToken = some v) ∧
    (∀ a, ak2 = some a → a ≠ "" →
      (bedrock_embed invoke env2 texts modelArg ak2 sk2 st2).2.1.accessKeyId = some a) ∧
    (∀ b, sk2 = some b → b ≠ "" →
      (bedrock_embed invoke env2 texts modelArg ak2 sk2 st2).2.1.secretAccessKey = some b) ∧
    (∀ c, st2 = some c → c ≠ "" →
      (bedrock_embed invoke env2 texts modelArg ak2 sk2 st2).2.1.sessionToken = some c) := by
  rw [bedrock_complete_if_cache_env converse env model prompt systemPrompt history ak sk st kwargs,
    bedrock_embed_env invoke env2 texts modelArg ak2 sk2 st2 hr]
  exact ⟨(applyCompletionCreds_preserves_set env ak sk st).1,
    (applyCompletionCreds_preserves_set env ak sk st).2.1,
    (applyCompletionCreds_preserves_set env ak sk st).2.2,
    (applyEmbedCreds_overwrites env2 ak2 sk2 st2).1,
    (applyEmbedCreds_overwrites env2 ak2 sk2 st2).2.1,
    (applyEmbedCreds_overwrites env2 ak2 sk2 st2).2.2⟩

/-- C9 witness: at concrete inputs, the completion pipeline keeps the
already-set access key even though a different one is supplied, while the
embedding pipeline overwrites it with the supplied one. -/
theorem c9_credential_asymmetry_witness :
    (∀ v, envFixture.accessKeyId = some v →
      (bedrock_complete_if_cache converseOkFixture envFixture (.str "m") (.str "p") .pyNone []
        (some "OTHER") none none []).2.1.accessKeyId = some v) ∧
    (∀ v, envFixture.secretAccessKey = some v →
      (bedrock_complete_if_cache converseOkFixture envFixture (.str "m") (.str "p") .pyNone []
        (some "OTHER") none none []).2.1.secretAccessKey = some v) ∧
    (∀ v, envFixture.sessionToken = some v →
      (bedrock_complete_if_cache converseOkFixture envFixture (.str "m") (.str "p") .pyNone []
        (some "OTHER") none none []).2.1.sessionToken = some v) ∧
    (∀ a, (some "OTHER" : Option String) = some a → a ≠ "" →
      (bedrock_embed (fun _ => .ok .pyNone) envFixture ["t"] none
        (some "OTHER") none none).2.1.accessKeyId = some a) ∧
    (∀ b, (none : Option String) = some b → b ≠ "" →
      (bedrock_embed (fun _ => .ok .pyNone) envFixture ["t"] none
        (some "OTHER") none none).2.1.secretAccessKey = some b) ∧
    (∀ c, (none : Option String) = some c → c ≠ "" →
      (bedrock_embed (fun _ => .ok .pyNone) envFixture ["t"] none
        (some "OTHER") none none).2.1.sessionToken = some c) :=
  c9_credential_asymmetry converseOkFixture envFixture (.str "m") (.str "p") .pyNone []
    (some "OTHER") none none [] (fun _ => .ok .pyNone) envFixture ["t"] none
    (some "OTHER") none none rfl

/-- C3: when the remote Converse call succeeds but the response lacks the
expected `output.message.content[0].text` fields, `bedrock_complete_if_cache`
fails with the field-extraction error (the spec's `ResponseShapeError`),
which the completion retry policy never retries: the error surfaces to the
caller directly after a single attempt. -/
theorem c3_shape_error_not_retried
    (converseAt : Nat → ConverseArgs → Except PyError Val) (env env1 : Env)
    (model prompt systemPrompt : Val) (history ms : List (List (String × Val)))
    (ak sk st : Option String) (kwargs : List (String × Val)) (resp : Val) (e : PyError)
    (hc : applyCompletionCreds env ak sk st = (env1, none))
    (hw : wrapHistoryMessages history = .ok ms)
    (hok : ∀ args, converseAt 1 args = .ok resp)
    (hshape : extractResponseText resp = .error e) :
    (bedrock_complete_if_cache_retried converseAt env model prompt systemPrompt history
      ak sk st kwargs).1 = .error (.direct e) ∧
    (bedrock_complete_if_cache_retried converseAt env model prompt systemPrompt history
      ak sk st kwargs).2.2 = 1 ∧
    completionRetryPred e = false := by
  have hpred := extractResponseText_error_not_retryable resp e hshape
  have hrun : (fun n s =>
      let r := bedrock_complete_if_cache (converseAt n) s model prompt systemPrompt
        history ak sk st kwargs
      (r.1, r.2.1)) 1 env = (Except.error e, env1) := by
    dsimp only
    rw [bedrock_complete_if_cache_conv_ok (converseAt 1) env env1 model prompt systemPrompt
      history ak sk st kwargs ms resp hc hw (hok _)]
    rw [hshape]
  unfold bedrock_complete_if_cache_retried
  rw [tenacityCall_first_direct completionRetryPred 5 _ env e env1 hrun hpred]
  exact ⟨rfl, rfl, hpred⟩

/-- A structurally malformed Converse response: the `content` list is empty,
so `content[0]` raises. -/
def malformedResponseFixture : Val :=
  .obj [("output", .obj [("message", .obj [("role", .str "assistant"), ("content", .arr [])])])]

/-- C3 witness: a concrete run whose remote call succeeds with a response
missing the expected fields surfaces the extraction error unretried after
one attempt. -/
theorem c3_shape_error_not_retried_witness :
    (bedrock_complete_if_cache_retried (fun _ _ => .ok malformedResponseFixture) envFixture
      (.str "m") (.str "p") .pyNone [] none none none []).1 =
      .error (.direct .indexError) ∧
    (bedrock_complete_if_cache_retried (fun _ _ => .ok malformedResponseFixture) envFixture
      (.str "m") (.str "p") .pyNone [] none none none []).2.2 = 1 ∧
    completionRetryPred .indexError = false :=
  c3_shape_error_not_retried (fun _ _ => .ok malformedResponseFixture) envFixture envFixture
    (.str "m") (.str "p") .pyNone [] [] none none none [] malformedResponseFixture .indexError
    rfl rfl (fun _ => rfl) rfl

/-- The resolved embedding model only depends on the explicit argument and
the embedding-model override variable. -/
lemma resolveEmbedModel_congr (modelArg : Option String) (s env : Env)
    (h : s.embeddingModelName = env.embeddingModelName) :
    resolveEmbedModel modelArg s = resolveEmbedModel modelArg env := by
  simp [resolveEmbedModel, h]

/-- C5: a completion call whose remote Converse request fails on every
attempt makes exactly 5 attempts before tenacity's error surfaces (each
failure being the generic `BedrockError`), and an embedding call whose
remote request fails with a retryable transport/throttling error on every
attempt makes exactly 3 attempts before the error surfaces. -/
theorem c5_retry_attempt_counts
    (converseAt : Nat → ConverseArgs → Except PyError Val)
    (env : Env) (model prompt systemPrompt : Val) (history ms : List (List (String × Val)))
    (ak sk st : Option String) (kwargs : List (String × Val))
    (invokeAt : Nat → InvokeArgs → Except PyError Val) (env2 : Env)
    (texts : List String) (modelArg ak2 sk2 st2 : Option String) :
    (((applyCompletionCreds env ak sk st).2 = none) →
      (wrapHistoryMessages history = .ok ms) →
      (∀ n args, ∃ e, converseAt n args = .error e) →
      ∃ e, (bedrock_complete_if_cache_retried converseAt env model prompt systemPrompt history
              ak sk st kwargs).1 = .error (.exhausted (.bedrockError e)) ∧
        (bedrock_complete_if_cache_retried converseAt env model prompt systemPrompt history
          ak sk st kwargs).2.2 = 5) ∧
    ((strTruthy env2.region = true) →
      (firstSegment (resolveEmbedModel modelArg env2) = "cohere") →
      (∀ n args, ∃ e, invokeAt n args = .error e ∧ embedRetryPred e = true) →
      ∃ e, (bedrock_embed_retried invokeAt env2 texts modelArg ak2 sk2 st2).1 =
              .error (.exhausted e) ∧
        embedRetryPred e = true ∧
        (bedrock_embed_retried invokeAt env2 texts modelArg ak2 sk2 st2).2.2 = 3) := by
  constructor
  · intro hcS hw hfail
    have hstep : ∀ (n : Nat) (s : Env), (applyCompletionCreds s ak sk st).2 = none →
        ∃ e s1, (fun n s =>
          let r := bedrock_complete_if_cache (converseAt n) s model prompt systemPrompt
            history ak sk st kwargs
          (r.1, r.2.1)) n s = (Except.error e, s1) ∧
          completionRetryPred e = true ∧ (∃ e0, e = PyError.bedrockError e0) ∧
          (applyCompletionCreds s1 ak sk st).2 = none := by
      intro n s hs
      rcases hpair : applyCompletionCreds s ak sk st with ⟨env1, err⟩
      rw [hpair] at hs
      simp at hs
      subst hs
      obtain ⟨e, he⟩ := hfail n
        (buildConverseArgs model prompt systemPrompt ms (eraseKey "hashing_kv" kwargs))
      refine ⟨.bedrockError e, env1, ?_, rfl, ⟨e, rfl⟩, ?_⟩
      · dsimp only
        rw [bedrock_complete_if_cache_conv_error (converseAt n) s env1 model prompt systemPrompt
          history ak sk st kwargs ms e hpair hw he]
      · obtain ⟨ha, hb, hc2⟩ := applyCompletionCreds_success_all_set s env1 ak sk st hpair
        rw [applyCompletionCreds_of_all_set env1 ak sk st ha hb hc2]
    obtain ⟨e, s1, heq, hQ⟩ := tenacityLoop_all_fail completionRetryPred _ _
      (fun e => ∃ e0, e = PyError.bedrockError e0) hstep 4 1 env hcS
    obtain ⟨e0, rfl⟩ := hQ
    have hcall : bedrock_complete_if_cache_retried converseAt env model prompt systemPrompt
        history ak sk st kwargs =
        (Except.error (.exhausted (PyError.bedrockError e0)), s1, 1 + 4) := by
      unfold bedrock_complete_if_cache_retried tenacityCall
      exact heq
    exact ⟨e0, by rw [hcall], by rw [hcall]⟩
  · intro hr hcoh hfail
    have hstep : ∀ (n : Nat) (s : Env),
        (s.region = env2.region ∧ s.embeddingModelName = env2.embeddingModelName) →
        ∃ e s1, (fun n s =>
          let r := bedrock_embed (invokeAt n) s texts modelArg ak2 sk2 st2
          (r.1, r.2.1)) n s = (Except.error e, s1) ∧
          embedRetryPred e = true ∧ embedRetryPred e = true ∧
          (s1.region = env2.region ∧ s1.embeddingModelName = env2.embeddingModelName) := by
      intro n s hs
      obtain ⟨hreg, hemn⟩ := hs
      have hrs : strTruthy s.region = true := by rw [hreg]; exact hr
      have hms : resolveEmbedModel modelArg s = resolveEmbedModel modelArg env2 :=
        resolveEmbedModel_congr modelArg s env2 hemn
      have hps : firstSegment (resolveEmbedModel modelArg s) = "cohere" := by
        rw [hms]; exact hcoh
      obtain ⟨e, he, hpe⟩ := hfail n (mkCohereInvokeArgs (resolveEmbedModel modelArg s) texts)
      refine ⟨e, applyEmbedCreds s ak2 sk2 st2, ?_, hpe, hpe, ?_⟩
      · dsimp only
        rw [bedrock_embed_cohere (invokeAt n) s texts modelArg ak2 sk2 st2 hrs hps, he]
      · obtain ⟨h1, h2⟩ := applyEmbedCreds_preserves_config s ak2 sk2 st2
        exact ⟨by rw [h1, hreg], by rw [h2, hemn]⟩
    obtain ⟨e, s1, heq, hQ⟩ := tenacityLoop_all_fail embedRetryPred _ _
      (fun e => embedRetryPred e = true) hstep 2 1 env2 ⟨rfl, rfl⟩
    have hcall : bedrock_embed_retried invokeAt env2 texts modelArg ak2 sk2 st2 =
        (Except.error (.exhausted e), s1, 1 + 2) := by
      unfold bedrock_embed_retried tenacityCall
      exact heq
    exact ⟨e, by rw [hcall], hQ, by rw [hcall]⟩

/-- C5 witness: concrete always-failing clients make the completion call take
exactly 5 attempts and the embedding call exactly 3. -/
theorem c5_retry_attempt_counts_witness :
    (∃ e, (bedrock_complete_if_cache_retried (fun _ _ => .error (.otherError "down")) envFixture
        (.str "m") (.str "p") .pyNone [] none none none []).1 =
          .error (.exhausted (.bedrockError e)) ∧
      (bedrock_complete_if_cache_retried (fun _ _ => .error (.otherError "down")) envFixture
        (.str "m") (.str "p") .pyNone [] none none none []).2.2 = 5) ∧
    (∃ e, (bedrock_embed_retried (fun _ _ => .error .readTimeoutError) envFixture ["a"]
        (some "cohere.embed-english-v3") none none none).1 = .error (.exhausted e) ∧
      embedRetryPred e = true ∧
      (bedrock_embed_retried (fun _ _ => .error .readTimeoutError) envFixture ["a"]
        (some "cohere.embed-english-v3") none none none).2.2 = 3) :=
  ⟨(c5_retry_attempt_counts (fun _ _ => .error (.otherError "down")) envFixture
      (.str "m") (.str "p") .pyNone [] [] none none none []
      (fun _ _ => .error .readTimeoutError) envFixture ["a"]
      (some "cohere.embed-english-v3") none none none).1
      rfl rfl (fun _ _ => ⟨.otherError "down", rfl⟩),
   (c5_retry_attempt_counts (fun _ _ => .error (.otherError "down")) envFixture
      (.str "m") (.str "p") .pyNone [] [] none none none []
      (fun _ _ => .error .readTimeoutError) envFixture ["a"]
      (some "cohere.embed-english-v3") none none none).2
      rfl rfl (fun _ _ => ⟨.readTimeoutError, rfl, rfl⟩)⟩

/-- An explicitly supplied non-empty model identifier is used as-is. -/
lemma resolveEmbedModel_explicit (model : String) (env : Env) (h : model ≠ "") :
    resolveEmbedModel (some model) env = model := by
  simp [resolveEmbedModel, h]

/-- C6 (amended): for an amazon-family model identifier, the per-text request
body is `{inputText, embeddingTypes:["float"]}` when the identifier carries
the `v2` marker (which takes precedence), `{inputText}` alone when it carries
the `v1` marker and not the `v2` marker, and for any other version marker the
call fails with the model-not-supported `ValueError` before issuing any
remote call; every remote call the amazon path issues carries a body built by
this per-text construction from one of the input texts. -/
theorem c6_amazon_body_shapes (model t : String) :
    (containsSub model "v2" = true →
      amazonRequestBody model t =
        .ok (.obj [("inputText", .str t), ("embeddingTypes", .arr [.str "float"])])) ∧
    (containsSub model "v2" = false → containsSub model "v1" = true →
      amazonRequestBody model t = .ok (.obj [("inputText", .str t)])) ∧
    (containsSub model "v2" = false → containsSub model "v1" = false →
      ∀ (invoke : InvokeArgs → Except PyError Val) (env : Env) (ts : List String)
        (ak sk st : Option String),
        strTruthy env.region = true → model ≠ "" → firstSegment model = "amazon" →
        bedrock_embed invoke env (t :: ts) (some model) ak sk st =
          (.error (.unsupportedModel model), applyEmbedCreds env ak sk st, [])) ∧
    (∀ (invoke : InvokeArgs → Except PyError Val) (env : Env) (ts : List String)
      (ak sk st : Option String),
      strTruthy env.region = true → model ≠ "" → firstSegment model = "amazon" →
      ∀ c ∈ (bedrock_embed invoke env ts (some model) ak sk st).2.2,
        ∃ t1, t1 ∈ ts ∧ amazonRequestBody model t1 = .ok c.body) := by
  refine ⟨fun h2 => ?_, fun h2 h1 => ?_, fun h2 h1 invoke env ts ak sk st hr hne hseg => ?_,
    fun invoke env ts ak sk st hr hne hseg c hc => ?_⟩
  · simp [amazonRequestBody, h2]
  · simp [amazonRequestBody, h2, h1]
  · have hresolve := resolveEmbedModel_explicit model env hne
    have hp : firstSegment (resolveEmbedModel (some model) env) = "amazon" := by
      rw [hresolve]; exact hseg
    rw [bedrock_embed_amazon invoke env (t :: ts) (some model) ak sk st hr hp, hresolve]
    rw [amazonEmbedLoop_unsupported invoke model t ts (.unsupportedModel model)
      (by simp [amazonRequestBody, h2, h1])]
  · have hresolve := resolveEmbedModel_explicit model env hne
    have hp : firstSegment (resolveEmbedModel (some model) env) = "amazon" := by
      rw [hresolve]; exact hseg
    rw [bedrock_embed_amazon invoke env ts (some model) ak sk st hr hp, hresolve] at hc
    rcases hloop : amazonEmbedLoop invoke model ts with ⟨r, calls⟩
    rw [hloop] at hc
    have hc2 : c ∈ calls := by rcases r with e | embs <;> simpa using hc
    obtain ⟨t1, ht1, hbody, _⟩ := amazonEmbedLoop_calls_mem invoke model ts c
      (by rw [hloop]; exact hc2)
    exact ⟨t1, ht1, hbody⟩

/-- C6 counterexample: a model identifier carrying both version markers gets
the `v2` body shape even though it carries the `v1` marker, so the claim's
v1 clause fails as stated (the two body shapes differ). -/
theorem c6_both_markers_counterexample :
    containsSub "amazon.titan-embed-v1-v2" "v1" = true ∧
    amazonRequestBody "amazon.titan-embed-v1-v2" "a" =
      .ok (.obj [("inputText", .str "a"), ("embeddingTypes", .arr [.str "float"])]) ∧
    Val.obj [("inputText", Val.str "a"), ("embeddingTypes", Val.arr [Val.str "float"])] ≠
      Val.obj [("inputText", Val.str "a")] := by
  refine ⟨rfl, rfl, by simp⟩

/-- C6 witness: the three body behaviours at concrete amazon model
identifiers. -/
theorem c6_amazon_body_shapes_witness :
    amazonRequestBody "amazon.titan-embed-text-v2:0" "hello" =
      .ok (.obj [("inputText", .str "hello"), ("embeddingTypes", .arr [.str "float"])]) ∧
    amazonRequestBody "amazon.titan-embed-text-v1" "hello" =
      .ok (.obj [("inputText", .str "hello")]) ∧
    bedrock_embed (fun _ => .ok .pyNone) envFixture ["a"] (some "amazon.titan-embed-text-v9")
      none none none =
      (.error (.unsupportedModel "amazon.titan-embed-text-v9"),
       applyEmbedCreds envFixture none none none, []) :=
  ⟨(c6_amazon_body_shapes "amazon.titan-embed-text-v2:0" "hello").1 rfl,
   (c6_amazon_body_shapes "amazon.titan-embed-text-v1" "hello").2.1 rfl rfl,
   (c6_amazon_body_shapes "amazon.titan-embed-text-v9" "a").2.2.1 rfl rfl
     (fun _ => .ok .pyNone) envFixture [] none none none rfl (by decide) rfl⟩

/-- C7 (amended): with the region set, a call to `bedrock_embed` whose
resolved model has first dot-separated segment `amazon` issues exactly
`len(texts)` remote calls when the version marker is supported and every
per-text call succeeds with an `embedding` field; a resolved model with first
segment `cohere` issues exactly one remote call regardless of `len(texts)`;
any other first segment fails with the unsupported-provider `ValueError`
with zero remote calls issued. -/
theorem c7_provider_call_counts
    (invoke : InvokeArgs → Except PyError Val) (env : Env) (texts : List String)
    (modelArg ak sk st : Option String)
    (hr : strTruthy env.region = true) :
    ((firstSegment (resolveEmbedModel modelArg env) = "amazon") →
      ∀ (bodyF : String → Val) (embF : InvokeArgs → Val),
      (∀ t, amazonRequestBody (resolveEmbedModel modelArg env) t = .ok (bodyF t)) →
      (∀ a, ∃ r, invoke a = .ok r ∧ r.getKey "embedding" = .ok (embF a)) →
      (bedrock_embed invoke env texts modelArg ak sk st).2.2.length = texts.length) ∧
    ((firstSegment (resolveEmbedModel modelArg env) = "cohere") →
      (bedrock_embed invoke env texts modelArg ak sk st).2.2.length = 1) ∧
    ((firstSegment (resolveEmbedModel modelArg env) ≠ "amazon") →
     (firstSegment (resolveEmbedModel modelArg env) ≠ "cohere") →
      (bedrock_embed invoke env texts modelArg ak sk st).1 =
        .error (.unsupportedProvider (firstSegment (resolveEmbedModel modelArg env))) ∧
      (bedrock_embed invoke env texts modelArg ak sk st).2.2 = []) := by
  refine ⟨fun hp bodyF embF hbody hinv => ?_, fun hp => ?_, fun hpa hpc => ?_⟩
  · rw [bedrock_embed_amazon invoke env texts modelArg ak sk st hr hp]
    rw [amazonEmbedLoop_ok_spec invoke (resolveEmbedModel modelArg env) bodyF embF hbody hinv texts]
    simp
  · rw [bedrock_embed_cohere invoke env texts modelArg ak sk st hr hp]
    rcases invoke (mkCohereInvokeArgs (resolveEmbedModel modelArg env) texts) with e | respBody <;>
      dsimp only
    · rfl
    · rcases respBody.getKey "embeddings" with e | embs <;> rfl
  · rw [bedrock_embed_unsupported_provider invoke env texts modelArg ak sk st hr hpa hpc]
    exact ⟨rfl, rfl⟩

/-- C7 counterexample: a concrete call with an amazon-prefixed model whose
version marker is unsupported issues zero remote calls, not one per input
text. -/
theorem c7_amazon_zero_calls_counterexample :
    firstSegment "amazon.titan-embed-text-v9" = "amazon" ∧
    (bedrock_embed (fun _ => .ok .pyNone) envFixture ["a"] (some "amazon.titan-embed-text-v9")
      none none none).2.2.length = 0 ∧
    (["a"] : List String).length = 1 :=
  ⟨rfl, rfl, rfl⟩

/-- C7 witness: concrete calls exercising the three dispatch behaviours. -/
theorem c7_provider_call_counts_witness :
    (bedrock_embed (fun a => .ok (.obj [("embedding", a.body)])) envFixture ["a", "b"]
      (some "amazon.titan-embed-text-v2:0") none none none).2.2.length =
      (["a", "b"] : List String).length ∧
    (bedrock_embed (fun a => .ok (.obj [("embedding", a.body)])) envFixture ["a", "b"]
      (some "cohere.embed-english-v3") none none none).2.2.length = 1 ∧
    ((bedrock_embed (fun a => .ok (.obj [("embedding", a.body)])) envFixture ["a", "b"]
      (some "openai.text-embedding-3") none none none).1 =
        .error (.unsupportedProvider
          (firstSegment (resolveEmbedModel (some "openai.text-embedding-3") envFixture))) ∧
     (bedrock_embed (fun a => .ok (.obj [("embedding", a.body)])) envFixture ["a", "b"]
      (some "openai.text-embedding-3") none none none).2.2 = []) :=
  ⟨(c7_provider_call_counts (fun a => .ok (.obj [("embedding", a.body)])) envFixture ["a", "b"]
      (some "amazon.titan-embed-text-v2:0") none none none rfl).1 rfl
      (fun t => .obj [("inputText", .str t), ("embeddingTypes", .arr [.str "float"])])
      (fun a => a.body) (fun _ => rfl) (fun a => ⟨.obj [("embedding", a.body)], rfl, rfl⟩),
   (c7_provider_call_counts (fun a => .ok (.obj [("embedding", a.body)])) envFixture ["a", "b"]
      (some "cohere.embed-english-v3") none none none rfl).2.1 rfl,
   (c7_provider_call_counts (fun a => .ok (.obj [("embedding", a.body)])) envFixture ["a", "b"]
      (some "openai.text-embedding-3") none none none rfl).2.2
      (by decide) (by decide)⟩

/-- C8: for a successful `bedrock_embed` call, the returned array has exactly
one row per input text and row `i` is the embedding the provider returned for
input text `i`: on the amazon path the rows are the per-text responses'
`embedding` fields in input order, and on the cohere path the response's
`embeddings` rows (one per input text by the provider contract) are returned
unchanged, in order. -/
theorem c8_row_order
    (invoke : InvokeArgs → Except PyError Val) (env : Env) (texts : List String)
    (modelArg ak sk st : Option String)
    (hr : strTruthy env.region = true) :
    ((firstSegment (resolveEmbedModel modelArg env) = "amazon") →
      ∀ (bodyF : String → Val) (embF : InvokeArgs → Val),
      (∀ t, amazonRequestBody (resolveEmbedModel modelArg env) t = .ok (bodyF t)) →
      (∀ a, ∃ r, invoke a = .ok r ∧ r.getKey "embedding" = .ok (embF a)) →
      ∃ rows, (bedrock_embed invoke env texts modelArg ak sk st).1 = .ok (.arr rows) ∧
        rows = texts.map (fun t => embF (mkAmazonInvokeArgs (resolveEmbedModel modelArg env) (bodyF t))) ∧
        rows.length = texts.length) ∧
    ((firstSegment (resolveEmbedModel modelArg env) = "cohere") →
      ∀ (resp : Val) (rows : List Val),
      invoke (mkCohereInvokeArgs (resolveEmbedModel modelArg env) texts) = .ok resp →
      resp.getKey "embeddings" = .ok (.arr rows) →
      rows.length = texts.length →
      (bedrock_embed invoke env texts modelArg ak sk st).1 = .ok (.arr rows) ∧
      rows.length = texts.length) := by
  refine ⟨fun hp bodyF embF hbody hinv => ?_, fun hp resp rows hresp hembs hlen => ?_⟩
  · rw [bedrock_embed_amazon invoke env texts modelArg ak sk st hr hp]
    rw [amazonEmbedLoop_ok_spec invoke (resolveEmbedModel modelArg env) bodyF embF hbody hinv texts]
    exact ⟨_, rfl, rfl, by simp⟩
  · rw [bedrock_embed_cohere invoke env texts modelArg ak sk st hr hp]
    rw [hresp]
    dsimp only
    rw [hembs]
    exact ⟨rfl, hlen⟩

/-- C8 witness: concrete runs of both provider families, returning one row
per text in input order. -/
theorem c8_row_order_witness :
    (∃ rows, (bedrock_embed (fun a => .ok (.obj [("embedding", a.body)])) envFixture ["a", "b"]
        (some "amazon.titan-embed-text-v2:0") none none none).1 = .ok (.arr rows) ∧
      rows = (["a", "b"] : List String).map (fun t =>
        (fun a => a.body) (mkAmazonInvokeArgs (resolveEmbedModel (some "amazon.titan-embed-text-v2:0") envFixture)
          ((fun t => Val.obj [("inputText", Val.str t), ("embeddingTypes", Val.arr [Val.str "float"])]) t))) ∧
      rows.length = (["a", "b"] : List String).length) ∧
    ((bedrock_embed (fun _ => .ok (.obj [("embeddings",
        .arr [.arr [.num 1, .num 2], .arr [.num 3, .num 4]])])) envFixture ["a", "b"]
        (some "cohere.embed-english-v3") none none none).1 =
      .ok (.arr [.arr [.num 1, .num 2], .arr [.num 3, .num 4]]) ∧
     ([Val.arr [Val.num 1, Val.num 2], Val.arr [Val.num 3, Val.num 4]] : List Val).length =
       (["a", "b"] : List String).length) :=
  ⟨(c8_row_order (fun a => .ok (.obj [("embedding", a.body)])) envFixture ["a", "b"]
      (some "amazon.titan-embed-text-v2:0") none none none rfl).1 rfl
      (fun t => Val.obj [("inputText", Val.str t), ("embeddingTypes", Val.arr [Val.str "float"])])
      (fun a => a.body) (fun _ => rfl) (fun a => ⟨.obj [("embedding", a.body)], rfl, rfl⟩),
   (c8_row_order (fun _ => .ok (.obj [("embeddings",
        .arr [.arr [.num 1, .num 2], .arr [.num 3, .num 4]])])) envFixture ["a", "b"]
      (some "cohere.embed-english-v3") none none none rfl).2 rfl
      (.obj [("embeddings", .arr [.arr [.num 1, .num 2], .arr [.num 3, .num 4]])])
      [.arr [.num 1, .num 2], .arr [.num 3, .num 4]] rfl rfl rfl⟩

/-- C1 (code bug evidence): at a concrete call to the public completion entry
point in which keyword extraction is requested through the declared
`keyword_extraction` parameter, the returned value is the raw completion
text, not the embedded JSON body (which differs from the raw text here).
Line 103 rebinds the parameter to `kwargs.pop("keyword_extraction", None)`,
and Python's calling convention never places that key in `**kwargs`, so the
post-processing branch is unreachable. -/
theorem c1_keyword_extraction_request_ignored :
    (bedrock_complete converseOkFixture envFixture (.str "extract keywords") .pyNone []
      (.bool true) [("hashing_kv", hashingKvFixture)]).1 = .ok (.str rawFixture) ∧
    locate_json_string_body_from_string rawFixture ≠ .str rawFixture := by
  constructor
  · rfl
  · have hval : locate_json_string_body_from_string rawFixture =
        .str "\x7b\x22keywords\x22: [\x22a\x22]\x7d" := rfl
    rw [hval]
    intro h
    injection h with h2
    exact absurd h2 (by decide)
